import Mathlib

/-!
Verification of the Solar Hydrogen Techno-Economic Model
(src/Solar-Hydrogen-Model-by-Sohel.py).

The core of the program is a set of closed-form finance formulas (capital
recovery factor, levelized cost of hydrogen, net present value, payback
period, a one-axis sensitivity sweep) and a monthly energy ledger that
derives grid import/export, cost/profit and CO2 columns row-wise from an
uploaded demand/generation table.  Real arithmetic is embedded as exact
rational arithmetic (the formulas are algebraic; no claim concerns
floating-point rounding), and the numpy NaN sentinel used by the payback
computation is embedded as `Option.none`.
-/

namespace SolarHydrogen

/-- Global constant `project_lifetime = 20` (source line 43). -/
def project_lifetime : ℕ := 20

/-- Global constant `annual_h2_production = 208_800` kg/year (source line 44). -/
def annual_h2_production : ℚ := 208800

/-- Global constant `wacc_baseline = 0.08` (source line 46). -/
def wacc_baseline : ℚ := 8/100

/-- Global constant `grid_emission_factor = 0.67` kg CO2/kWh (source line 49). -/
def grid_emission_factor : ℚ := 67/100

/-- Sidebar default for the grid tariff, 0.12 USD/kWh (source line 51). -/
def grid_tariff : ℚ := 12/100

/-- Sidebar default for the export tariff, 0.08 USD/kWh (source line 52). -/
def export_tariff : ℚ := 8/100

/-- `total_capex = solar + electrolyzer + fuel_cell + storage` at the sidebar
defaults 4.5M + 6M + 1.7M + 0.9M (source lines 54-62). -/
def total_capex : ℚ := 4500000 + 6000000 + 1700000 + 900000

/-- `annual_cashflow = annual_revenue - annual_om_cost` at the sidebar
defaults 679549 - 60000 (source lines 59-63). -/
def annual_cashflow : ℚ := 679549 - 60000

/-- `crf(rate, n) = rate * (1 + rate) ** n / ((1 + rate) ** n - 1)`
(source lines 69-70). -/
def crf (rate : ℚ) (n : ℕ) : ℚ :=
  rate * (1 + rate) ^ n / ((1 + rate) ^ n - 1)

/-- Body of `lcoh(capex, om, rev, h2, rate)` (source lines 72-73) with the
global `project_lifetime` it reads made an explicit parameter, so that
statements can quantify over the lifetime as the spec does. -/
def lcohAt (lifetime : ℕ) (capex om rev h2 rate : ℚ) : ℚ :=
  (capex * crf rate lifetime + om - rev) / h2

/-- `lcoh(capex, om, rev, h2, rate)` exactly as in the source (lines 72-73),
reading the global `project_lifetime`. -/
def lcoh (capex om rev h2 rate : ℚ) : ℚ :=
  lcohAt project_lifetime capex om rev h2 rate

/-- Body of `npv(cashflow, capex, rate)` (source lines 75-77) with the global
`project_lifetime` it reads made an explicit parameter:
`pv = (1 - (1 + rate) ** (-lifetime)) / rate; cashflow * pv - capex`. -/
def npvAt (lifetime : ℕ) (cashflow capex rate : ℚ) : ℚ :=
  cashflow * ((1 - (1 + rate) ^ (-(lifetime : ℤ))) / rate) - capex

/-- `npv(cashflow, capex, rate)` exactly as in the source (lines 75-77),
reading the global `project_lifetime`. -/
def npv (cashflow capex rate : ℚ) : ℚ :=
  npvAt project_lifetime cashflow capex rate

/-- `payback = total_capex / annual_cashflow if annual_cashflow > 0 else np.nan`
(source line 104).  The `np.nan` sentinel is embedded as `none`: a
distinguishable undefined value, not a raised error. -/
def payback (capex cashflow : ℚ) : Option ℚ :=
  if 0 < cashflow then some (capex / cashflow) else none

/-- `np.linspace(start, stop, num)` with endpoint=True, as used on source
line 121: `num` evenly spaced samples `start + i * (stop - start)/(num - 1)`
for `i = 0, ..., num - 1`, both endpoints included (for `num ≥ 2`). -/
def linspace (start stop : ℚ) (num : ℕ) : List ℚ :=
  (List.range num).map
    (fun (i : ℕ) => start + (i : ℚ) * ((stop - start) / ((num : ℚ) - 1)))

/-- Modelled from the spec: `sensitivity_sweep(base_value, lower_pct,
upper_pct, n_points, fn)`.  The source hardwires one instance of this sweep
(lines 121-126: `capex_range = np.linspace(0.7, 1.3, 20)` mapped through
`lcoh` with every other input at its base value); the general function with
`lower_pct`/`upper_pct`/`n_points` as parameters exists only in the spec, so
it is modelled from the spec's words: evenly spaced multipliers across
`[1 - lower_pct, 1 + upper_pct]` inclusive of endpoints, each paired with
`fn(base_value * multiplier)`. -/
def sensitivity_sweep (base lower upper : ℚ) (n : ℕ) (fn : ℚ → ℚ) :
    List (ℚ × ℚ) :=
  (linspace (1 - lower) (1 + upper) n).map (fun m => (m, fn (base * m)))

/-- The code's own sweep of LCOH versus CAPEX (source lines 121-126):
multipliers `np.linspace(0.7, 1.3, 20)`, each applied to `total_capex` with
all other inputs at their base values. -/
def lcoh_sens : List ℚ :=
  (linspace (7/10) (13/10) 20).map
    (fun x => lcoh (total_capex * x) 60000 679549 annual_h2_production wacc_baseline)

/-- `Grid_Import_kWh = np.maximum(demand - generation, 0)` (source line 156). -/
def gridImport (demand generation : ℚ) : ℚ := max (demand - generation) 0

/-- `Grid_Export_kWh = np.maximum(generation - demand, 0)` (source line 157). -/
def gridExport (demand generation : ℚ) : ℚ := max (generation - demand) 0

/-- One raw row of the uploaded table: the values of the three required
columns `Month`, `Electricity_Demand_kWh`, `Solar_Generation_kWh`. -/
structure RawRow where
  Month : String
  Electricity_Demand_kWh : ℚ
  Solar_Generation_kWh : ℚ

/-- The uploaded table: its column header list (what the validation check on
source lines 152-153 inspects) and its rows. -/
structure RawTable where
  columns : List String
  rows : List RawRow

/-- One fully derived row of the ledger output (source lines 156-164). -/
structure EnergyRecord where
  Month : String
  Electricity_Demand_kWh : ℚ
  Solar_Generation_kWh : ℚ
  Grid_Import_kWh : ℚ
  Grid_Export_kWh : ℚ
  Import_Cost_USD : ℚ
  Export_Revenue_USD : ℚ
  Net_Profit_USD : ℚ
  CO2_Emitted_kg : ℚ
  CO2_Avoided_kg : ℚ

/-- `required = ["Month", "Electricity_Demand_kWh", "Solar_Generation_kWh"]`
(source line 152). -/
def requiredCols : List String :=
  ["Month", "Electricity_Demand_kWh", "Solar_Generation_kWh"]

/-- The exact validation error message the code emits (source line 154). -/
def errMsg : String :=
  "Required columns: Month, Electricity_Demand_kWh, Solar_Generation_kWh"

/-- `name` occurs verbatim inside `msg`: the message names that column. -/
def mentions (msg name : String) : Prop := ∃ p s, msg = p ++ name ++ s

/-- Row-wise derivation of one `EnergyRecord` (source lines 156-164). -/
def deriveRecord (gt et ef : ℚ) (row : RawRow) : EnergyRecord :=
  let gi := gridImport row.Electricity_Demand_kWh row.Solar_Generation_kWh
  let ge := gridExport row.Electricity_Demand_kWh row.Solar_Generation_kWh
  let ic := gi * gt
  let er := ge * et
  { Month := row.Month
    Electricity_Demand_kWh := row.Electricity_Demand_kWh
    Solar_Generation_kWh := row.Solar_Generation_kWh
    Grid_Import_kWh := gi
    Grid_Export_kWh := ge
    Import_Cost_USD := ic
    Export_Revenue_USD := er
    Net_Profit_USD := er - ic
    CO2_Emitted_kg := gi * ef
    CO2_Avoided_kg := ge * ef }

/-- The ledger computation (source lines 149-164): if any required column is
absent the code emits the validation message and derives nothing; otherwise
every row is derived independently, in order. -/
def compute_ledger (gt et ef : ℚ) (t : RawTable) :
    Except String (List EnergyRecord) :=
  if requiredCols.all (fun c => t.columns.contains c) then
    .ok (t.rows.map (deriveRecord gt et ef))
  else
    .error errMsg

/-- `positive_months = (df["Net_Profit_USD"] > 0).sum()` (source line 189). -/
def positive_months (recs : List EnergyRecord) : ℕ :=
  recs.countP (fun r => decide (0 < r.Net_Profit_USD))

/-- A concrete two-row table used to exercise the ledger: January has surplus
solar, February has a deficit. -/
def demoTable : RawTable :=
  { columns := requiredCols
    rows := [⟨"Jan", 100, 300⟩, ⟨"Feb", 300, 100⟩] }

/-- A concrete table whose header lacks the `Solar_Generation_kWh` column. -/
def badTable : RawTable :=
  { columns := ["Month", "Electricity_Demand_kWh"]
    rows := [⟨"Jan", 100, 300⟩] }

end SolarHydrogen

namespace SolarHydrogen

/-- Exactly one of `a`, `b` is nonzero. -/
def exactlyOneNonzero (a b : ℚ) : Prop := (a ≠ 0 ∧ b = 0) ∨ (a = 0 ∧ b ≠ 0)

/-- Claim C1, counterexample: on a balanced record (demand = generation = 100)
both `grid_import` and `grid_export` are zero, so it is not the case that
exactly one of them is nonzero. -/
theorem balanced_record_not_exactlyOne :
    ¬ exactlyOneNonzero (gridImport 100 100) (gridExport 100 100) := by
  have h1 : gridImport 100 100 = 0 := by
    simp [gridImport]
  have h2 : gridExport 100 100 = 0 := by
    simp [gridExport]
  rw [exactlyOneNonzero, h1, h2]
  simp

/-- Claim C1, amended: whenever demand differs from generation, exactly one
of `grid_import = max(demand - generation, 0)` and
`grid_export = max(generation - demand, 0)` is nonzero (when they agree,
both are zero, so the original claim fails only in the balanced case). -/
theorem gridImport_gridExport_exactlyOne_of_ne (d g : ℚ) (h : d ≠ g) :
    exactlyOneNonzero (gridImport d g) (gridExport d g) := by
  rcases lt_or_gt_of_ne h with hlt | hgt
  · right
    constructor
    · exact max_eq_right (by linarith)
    · have : gridExport d g = g - d := max_eq_left (by linarith)
      rw [this]
      intro hc
      exact absurd (by linarith : d = g) h
  · left
    constructor
    · have : gridImport d g = d - g := max_eq_left (by linarith)
      rw [this]
      intro hc
      exact absurd (by linarith : d = g) h
    · exact max_eq_right (by linarith)

/-- Claim C1, witness: at demand = 5, generation = 3 the hypothesis holds and
exactly one of the derived grid fields is nonzero. -/
theorem gridImport_gridExport_exactlyOne_witness :
    exactlyOneNonzero (gridImport 5 3) (gridExport 5 3) :=
  gridImport_gridExport_exactlyOne_of_ne 5 3 (by norm_num)

/-- Claim C3: `payback` equals `total_capex / annual_cashflow` when the cash
flow is strictly positive and is the undefined sentinel `none` (the embedding
of `np.nan`) otherwise; in particular it is a value of an `Option` type, not
a raised error. -/
theorem payback_spec (c a : ℚ) :
    (0 < a → payback c a = some (c / a)) ∧ (a ≤ 0 → payback c a = none) := by
  constructor
  · intro h
    simp [payback, h]
  · intro h
    simp [payback, not_lt.mpr h]

/-- Claim C3, witness: at the spec's example capex = 13,100,000 and
cashflow = 619,549 the payback is defined and equals their quotient, and at
cashflow = 0 it is the sentinel. -/
theorem payback_spec_witness :
    payback 13100000 619549 = some (13100000 / 619549) ∧
      payback 13100000 0 = none :=
  ⟨(payback_spec 13100000 619549).1 (by norm_num),
   (payback_spec 13100000 0).2 le_rfl⟩

/-- Claim C4: for rate > 0 and lifetime > 0 the capital recovery factor is
given by the formula of source line 70 and is strictly positive. -/
theorem crf_eq_and_pos (rate : ℚ) (n : ℕ) (hr : 0 < rate) (hn : 0 < n) :
    crf rate n = rate * (1 + rate) ^ n / ((1 + rate) ^ n - 1) ∧
      0 < crf rate n := by
  refine ⟨rfl, ?_⟩
  have h1 : (1 : ℚ) < 1 + rate := by linarith
  have h2 : (1 : ℚ) < (1 + rate) ^ n :=
    (one_lt_pow_iff_of_nonneg (by linarith) (Nat.pos_iff_ne_zero.mp hn)).mpr h1
  have hnum : 0 < rate * (1 + rate) ^ n := by positivity
  have hden : 0 < (1 + rate) ^ n - 1 := by linarith
  exact div_pos hnum hden

/-- Claim C4, witness: at the baseline rate 0.08 and lifetime 20 the CRF is
strictly positive. -/
theorem crf_eq_and_pos_witness :
    crf (8/100) 20 = (8/100) * (1 + 8/100) ^ 20 / ((1 + 8/100) ^ 20 - 1) ∧
      0 < crf (8/100) 20 :=
  crf_eq_and_pos (8/100) 20 (by norm_num) (by norm_num)

/-- `grid_import` vanishes exactly when the demand does not exceed the
generation. -/
lemma gridImport_eq_zero_iff (d g : ℚ) : gridImport d g = 0 ↔ d ≤ g := by
  rw [gridImport, max_eq_right_iff]
  exact sub_nonpos

/-- `grid_export` vanishes exactly when the generation does not exceed the
demand. -/
lemma gridExport_eq_zero_iff (d g : ℚ) : gridExport d g = 0 ↔ g ≤ d := by
  rw [gridExport, max_eq_right_iff]
  exact sub_nonpos

/-- Claim C2: whenever some required column is absent from the uploaded
table, the ledger computation stops with the validation message, that
message names every missing column verbatim, and no record list (not even a
truncated one) is produced. -/
theorem compute_ledger_missing_column (gt et ef : ℚ) (t : RawTable)
    (h : ∃ c ∈ requiredCols, c ∉ t.columns) :
    compute_ledger gt et ef t = .error errMsg ∧
      (∀ c ∈ requiredCols, c ∉ t.columns → mentions errMsg c) ∧
      ∀ recs, compute_ledger gt et ef t ≠ .ok recs := by
  obtain ⟨c, hc, hnc⟩ := h
  have hfail : ¬ (requiredCols.all (fun c => t.columns.contains c) = true) := by
    rw [List.all_eq_true]
    intro hall
    exact hnc (by simpa using hall c hc)
  have herr : compute_ledger gt et ef t = .error errMsg := by
    rw [compute_ledger, if_neg hfail]
  refine ⟨herr, ?_, ?_⟩
  · intro c' hc' _
    rw [requiredCols] at hc'
    simp only [List.mem_cons, List.not_mem_nil, or_false] at hc'
    rcases hc' with rfl | rfl | rfl
    · exact ⟨"Required columns: ",
        ", Electricity_Demand_kWh, Solar_Generation_kWh", by decide⟩
    · exact ⟨"Required columns: Month, ", ", Solar_Generation_kWh", by decide⟩
    · exact ⟨"Required columns: Month, Electricity_Demand_kWh, ", "", by decide⟩
  · intro recs hok
    rw [herr] at hok
    cases hok

/-- Claim C2, witness: on the concrete table whose header lacks
`Solar_Generation_kWh`, the ledger computation yields the validation error,
the message names the missing column, and no record list is produced. -/
theorem compute_ledger_missing_column_witness :
    compute_ledger grid_tariff export_tariff grid_emission_factor badTable
        = .error errMsg ∧
      mentions errMsg "Solar_Generation_kWh" ∧
      ∀ recs, compute_ledger grid_tariff export_tariff grid_emission_factor
        badTable ≠ .ok recs := by
  have h := compute_ledger_missing_column grid_tariff export_tariff
    grid_emission_factor badTable
    ⟨"Solar_Generation_kWh", by decide, by decide⟩
  exact ⟨h.1, h.2.1 "Solar_Generation_kWh" (by decide) (by decide), h.2.2⟩

/-- Claim C9: on every table that passes the required-column validation, the
ledger's `positive_months` equals the number of derived records whose
`export_revenue - import_cost` is strictly positive. -/
theorem positive_months_spec (gt et ef : ℚ) (t : RawTable)
    (h : requiredCols.all (fun c => t.columns.contains c) = true) :
    compute_ledger gt et ef t = .ok (t.rows.map (deriveRecord gt et ef)) ∧
      positive_months (t.rows.map (deriveRecord gt et ef)) =
        ((t.rows.map (deriveRecord gt et ef)).filter
          (fun r => decide (0 < r.Export_Revenue_USD - r.Import_Cost_USD))).length := by
  refine ⟨by rw [compute_ledger, if_pos h], ?_⟩
  have key : ∀ r ∈ t.rows.map (deriveRecord gt et ef),
      decide (0 < r.Net_Profit_USD)
        = decide (0 < r.Export_Revenue_USD - r.Import_Cost_USD) := by
    intro r hr
    rcases List.mem_map.mp hr with ⟨row, _, rfl⟩
    rfl
  rw [positive_months, List.countP_eq_length_filter, List.filter_congr key]

/-- Claim C9, witness: on the concrete two-row demand/generation table, the
ledger succeeds and `positive_months` counts exactly the records with
positive net revenue (here 1: only January's surplus month). -/
theorem positive_months_spec_witness :
    (compute_ledger grid_tariff export_tariff grid_emission_factor demoTable
        = .ok (demoTable.rows.map
          (deriveRecord grid_tariff export_tariff grid_emission_factor)) ∧
      positive_months (demoTable.rows.map
          (deriveRecord grid_tariff export_tariff grid_emission_factor)) =
        ((demoTable.rows.map
          (deriveRecord grid_tariff export_tariff grid_emission_factor)).filter
          (fun r => decide (0 < r.Export_Revenue_USD - r.Import_Cost_USD))).length) ∧
      positive_months (demoTable.rows.map
          (deriveRecord grid_tariff export_tariff grid_emission_factor)) = 1 := by
  refine ⟨positive_months_spec grid_tariff export_tariff grid_emission_factor
    demoTable (by decide), ?_⟩
  simp only [demoTable, List.map_cons, List.map_nil, positive_months,
    List.countP_cons, List.countP_nil, deriveRecord, gridImport, gridExport,
    grid_tariff, export_tariff, grid_emission_factor, max_def]
  norm_num

/-- Claim C10: at most one of `grid_import`, `grid_export` is nonzero; both
vanish exactly when demand equals generation; and on such a balanced record
every tariff- and emission-derived field of the derived row is zero. -/
theorem balanced_record_all_zero (gt et ef d g : ℚ) (m : String) :
    ¬ (gridImport d g ≠ 0 ∧ gridExport d g ≠ 0) ∧
      (gridImport d g = 0 ∧ gridExport d g = 0 ↔ d = g) ∧
      (d = g →
        (deriveRecord gt et ef ⟨m, d, g⟩).Import_Cost_USD = 0 ∧
        (deriveRecord gt et ef ⟨m, d, g⟩).Export_Revenue_USD = 0 ∧
        (deriveRecord gt et ef ⟨m, d, g⟩).Net_Profit_USD = 0 ∧
        (deriveRecord gt et ef ⟨m, d, g⟩).CO2_Emitted_kg = 0 ∧
        (deriveRecord gt et ef ⟨m, d, g⟩).CO2_Avoided_kg = 0) := by
  refine ⟨?_, ?_, ?_⟩
  · rintro ⟨hi, he⟩
    rcases le_total d g with h | h
    · exact hi ((gridImport_eq_zero_iff d g).mpr h)
    · exact he ((gridExport_eq_zero_iff d g).mpr h)
  · rw [gridImport_eq_zero_iff, gridExport_eq_zero_iff]
    exact ⟨fun ⟨h1, h2⟩ => le_antisymm h1 h2, fun h => ⟨le_of_eq h, ge_of_eq h⟩⟩
  · rintro rfl
    have hi : gridImport d d = 0 := (gridImport_eq_zero_iff d d).mpr le_rfl
    have he : gridExport d d = 0 := (gridExport_eq_zero_iff d d).mpr le_rfl
    refine ⟨?_, ?_, ?_, ?_, ?_⟩ <;>
      simp [deriveRecord, hi, he]

/-- Claim C10, witness: at demand = generation = 7 (default tariffs and
emission factor), both grid fields and all derived money/CO2 fields are
zero. -/
theorem balanced_record_all_zero_witness :
    ¬ (gridImport 7 7 ≠ 0 ∧ gridExport 7 7 ≠ 0) ∧
      (gridImport 7 7 = 0 ∧ gridExport 7 7 = 0 ↔ (7 : ℚ) = 7) ∧
      ((7 : ℚ) = 7 →
        (deriveRecord grid_tariff export_tariff grid_emission_factor
          ⟨"Jul", 7, 7⟩).Import_Cost_USD = 0 ∧
        (deriveRecord grid_tariff export_tariff grid_emission_factor
          ⟨"Jul", 7, 7⟩).Export_Revenue_USD = 0 ∧
        (deriveRecord grid_tariff export_tariff grid_emission_factor
          ⟨"Jul", 7, 7⟩).Net_Profit_USD = 0 ∧
        (deriveRecord grid_tariff export_tariff grid_emission_factor
          ⟨"Jul", 7, 7⟩).CO2_Emitted_kg = 0 ∧
        (deriveRecord grid_tariff export_tariff grid_emission_factor
          ⟨"Jul", 7, 7⟩).CO2_Avoided_kg = 0) :=
  balanced_record_all_zero grid_tariff export_tariff grid_emission_factor 7 7 "Jul"

/-- Claim C5: for positive annual hydrogen production (and rate > 0,
lifetime > 0) the levelized cost of hydrogen satisfies
`lcoh * h2 = capex * crf + om - rev` — it is exactly the unclamped quotient
of the net annualized cost by the production — and consequently it is
strictly negative as soon as the revenue exceeds the annualized cost plus
O&M. -/
theorem lcohAt_formula (lifetime : ℕ) (capex om rev h2 rate : ℚ)
    (hh2 : 0 < h2) (hr : 0 < rate) (hl : 0 < lifetime) :
    lcohAt lifetime capex om rev h2 rate * h2
        = capex * crf rate lifetime + om - rev ∧
      (capex * crf rate lifetime + om < rev →
        lcohAt lifetime capex om rev h2 rate < 0) := by
  constructor
  · exact div_mul_cancel₀ _ (ne_of_gt hh2)
  · intro hneg
    have hnum : capex * crf rate lifetime + om - rev < 0 := by linarith
    exact div_neg_of_neg_of_pos hnum hh2

/-- Claim C5, witness: with capex = 0, O&M = 0, revenue = 1, production = 1
at the baseline rate and lifetime, the LCOH is negative (no clamping). -/
theorem lcohAt_formula_witness :
    lcohAt 20 0 0 1 1 (8/100) * 1 = 0 * crf (8/100) 20 + 0 - 1 ∧
      lcohAt 20 0 0 1 1 (8/100) < 0 := by
  have h := lcohAt_formula 20 0 0 1 1 (8/100) (by norm_num) (by norm_num) (by norm_num)
  exact ⟨h.1, h.2 (by simp)⟩

/-- Claim C6: for any capex C, rate > 0 and lifetime > 0, the net present
value of a zero annual cash flow is exactly -C, since the formula is
`cashflow * (1 - (1 + rate)^(-lifetime))/rate - capex`. -/
theorem npvAt_zero_cashflow (lifetime : ℕ) (C rate : ℚ)
    (hr : 0 < rate) (hl : 0 < lifetime) :
    npvAt lifetime 0 C rate = -C := by
  simp [npvAt]

/-- Claim C6, witness: at the default capex 13,100,000, baseline rate 0.08
and lifetime 20, a zero cash flow gives NPV = -13,100,000. -/
theorem npvAt_zero_cashflow_witness :
    npvAt 20 0 13100000 (8/100) = -13100000 :=
  npvAt_zero_cashflow 20 13100000 (8/100) (by norm_num) (by norm_num)

/-- The length of a `linspace` sample. -/
lemma linspace_length (start stop : ℚ) (num : ℕ) :
    (linspace start stop num).length = num := by
  rw [linspace, List.length_map, List.length_range]

/-- Element `k` of a `linspace` sample. -/
lemma linspace_getElem? (start stop : ℚ) (num k : ℕ) (hk : k < num) :
    (linspace start stop num)[k]? =
      some (start + k * ((stop - start) / ((num : ℚ) - 1))) := by
  rw [linspace, List.getElem?_map, List.getElem?_range hk, Option.map_some']

/-- Claim C7: for `n_points ≥ 2` the sensitivity sweep has exactly `n_points`
entries; the `k`-th multiplier is `(1 - lower) + k * (lower + upper)/(n - 1)`
(so consecutive multipliers differ by the constant step
`(lower + upper)/(n - 1)`: the sequence is ordered and evenly spaced), the
first multiplier is `1 - lower`, the last is `1 + upper`, and each multiplier
`m` is paired with `fn(base * m)` with every other input held at its base
value inside `fn`. -/
theorem sensitivity_sweep_spec (base lower upper : ℚ) (n : ℕ) (fn : ℚ → ℚ)
    (hn : 2 ≤ n) :
    (sensitivity_sweep base lower upper n fn).length = n ∧
      (∀ k, k < n →
        (sensitivity_sweep base lower upper n fn)[k]? =
          some ((1 - lower) + k * ((lower + upper) / ((n : ℚ) - 1)),
            fn (base * ((1 - lower) + k * ((lower + upper) / ((n : ℚ) - 1)))))) ∧
      ((sensitivity_sweep base lower upper n fn).map Prod.fst).head?
          = some (1 - lower) ∧
      ((sensitivity_sweep base lower upper n fn).map Prod.fst).getLast?
          = some (1 + upper) := by
  have hdiff : (1 + upper) - (1 - lower) = lower + upper := by ring
  have helem : ∀ k, k < n →
      (sensitivity_sweep base lower upper n fn)[k]? =
        some ((1 - lower) + k * ((lower + upper) / ((n : ℚ) - 1)),
          fn (base * ((1 - lower) + k * ((lower + upper) / ((n : ℚ) - 1))))) := by
    intro k hk
    rw [sensitivity_sweep, List.getElem?_map, linspace_getElem? _ _ _ _ hk,
      hdiff, Option.map_some']
  have hlen : (sensitivity_sweep base lower upper n fn).length = n := by
    rw [sensitivity_sweep, List.length_map, linspace_length]
  refine ⟨hlen, helem, ?_, ?_⟩
  · rw [List.head?_eq_getElem?, List.getElem?_map, helem 0 (by omega),
      Option.map_some']
    norm_num
  · have hmlen : ((sensitivity_sweep base lower upper n fn).map Prod.fst).length
        = n := by rw [List.length_map, hlen]
    rw [List.getLast?_eq_getElem?, hmlen, List.getElem?_map,
      helem (n - 1) (by omega), Option.map_some']
    have hcast : ((n - 1 : ℕ) : ℚ) = (n : ℚ) - 1 := by
      have h1 : 1 ≤ n := by omega
      push_cast [h1]
      ring
    have hne : ((n : ℚ) - 1) ≠ 0 := by
      have h2 : (2 : ℚ) ≤ (n : ℚ) := by exact_mod_cast hn
      linarith
    rw [hcast]
    congr 1
    field_simp
    ring

/-- Claim C7, witness: a 20% sweep on each side with 7 points around the
default capex yields the 7 evenly spaced multipliers 4/5, 13/15, 14/15, 1,
16/15, 17/15, 6/5 — first 0.80, last 1.20, and the interior values round to
0.867, 0.933, 1.067, 1.133 within 1/1000. -/
theorem sensitivity_sweep_spec_witness :
    ((sensitivity_sweep 13100000 (1/5) (1/5) 7 (fun x => x)).map Prod.fst).head?
        = some (1 - 1/5) ∧
      ((sensitivity_sweep 13100000 (1/5) (1/5) 7 (fun x => x)).map
          Prod.fst).getLast? = some (1 + 1/5) ∧
      (sensitivity_sweep 13100000 (1/5) (1/5) 7 (fun x => x)).map Prod.fst
        = [4/5, 13/15, 14/15, 1, 16/15, 17/15, 6/5] ∧
      |(13 : ℚ)/15 - 867/1000| < 1/1000 ∧ |(14 : ℚ)/15 - 933/1000| < 1/1000 ∧
      |(16 : ℚ)/15 - 1067/1000| < 1/1000 ∧
      |(17 : ℚ)/15 - 1133/1000| < 1/1000 := by
  have h := sensitivity_sweep_spec 13100000 (1/5) (1/5) 7 (fun x => x)
    (by norm_num)
  have hrange : List.range 7 = [0, 1, 2, 3, 4, 5, 6] := by decide
  refine ⟨h.2.2.1, h.2.2.2, ?_, ?_, ?_, ?_, ?_⟩
  · simp only [sensitivity_sweep, linspace, hrange, List.map_cons,
      List.map_nil]
    norm_num
  all_goals rw [abs_sub_lt_iff]; constructor <;> norm_num

/-- Claim C8: for every (demand, generation) pair,
`grid_import - grid_export = demand - generation`. -/
theorem gridImport_sub_gridExport (d g : ℚ) :
    gridImport d g - gridExport d g = d - g := by
  rcases le_total g d with h | h
  · have h1 : gridImport d g = d - g := max_eq_left (by linarith)
    have h2 : gridExport d g = 0 := max_eq_right (by linarith)
    rw [h1, h2]; ring
  · have h1 : gridImport d g = 0 := max_eq_right (by linarith)
    have h2 : gridExport d g = g - d := max_eq_left (by linarith)
    rw [h1, h2]; ring

end SolarHydrogen
